import Mathlib

/-!
# Verification of the Sesame CSM 1B TTS API service (src/app.py)

Shallow embedding of the FastAPI service in `src/app.py`.  The external
pretrained model, processor, audio I/O library and reference-audio fetch are
opaque to the repository, so they are modelled as oracle functions carried in
the environment; everything the repository itself does (API-key check, request
validation, the generate pipeline with its TypeError fallback, audio
post-processing, the RunPod job envelope, base64 encoding of the WAV bytes) is
translated from the source.
-/

namespace TTSApi

/-! ## Base64 (Python `base64.b64encode`, used by `runpod_handler`) -/

def b64Alphabet : List Char :=
  "ABCDEFGHIJKLMNOPQRSTUVWXYZabcdefghijklmnopqrstuvwxyz0123456789+/".data

/-- Character for a 6-bit group. -/
def sextetChar (n : Nat) : Char := b64Alphabet.getD n 'A'

/-- Index of a base64 character in the alphabet. -/
def sextetVal (c : Char) : Option Nat := b64Alphabet.findIdx? (fun x => x == c)

/-- A byte as produced by truncating a natural number. -/
def toByte (n : Nat) : Fin 256 := ⟨n % 256, by omega⟩

/-- Standard base64 encoding of a byte list (with `=` padding), as produced by
Python `base64.b64encode(...).decode("utf-8")`. -/
def b64encodeBytes : List (Fin 256) → List Char
  | [] => []
  | [a] =>
      [sextetChar (a.val / 4), sextetChar (a.val % 4 * 16), '=', '=']
  | [a, b] =>
      [sextetChar (a.val / 4), sextetChar (a.val % 4 * 16 + b.val / 16),
       sextetChar (b.val % 16 * 4), '=']
  | a :: b :: c :: rest =>
      sextetChar (a.val / 4) :: sextetChar (a.val % 4 * 16 + b.val / 16) ::
      sextetChar (b.val % 16 * 4 + c.val / 64) :: sextetChar (c.val % 64) ::
      b64encodeBytes rest

/-- Base64 decoding, inverse of `b64encodeBytes`. -/
def b64decodeBytes : List Char → Option (List (Fin 256))
  | w :: x :: y :: z :: rest =>
      if y = '=' ∧ z = '=' ∧ rest = [] then
        match sextetVal w, sextetVal x with
        | some s1, some s2 => some [toByte (s1 * 4 + s2 / 16)]
        | _, _ => none
      else if z = '=' ∧ rest = [] then
        match sextetVal w, sextetVal x, sextetVal y with
        | some s1, some s2, some s3 =>
            some [toByte (s1 * 4 + s2 / 16), toByte (s2 % 16 * 16 + s3 / 4)]
        | _, _, _ => none
      else
        match sextetVal w, sextetVal x, sextetVal y, sextetVal z,
              b64decodeBytes rest with
        | some s1, some s2, some s3, some s4, some bs =>
            some (toByte (s1 * 4 + s2 / 16) :: toByte (s2 % 16 * 16 + s3 / 4) ::
                  toByte (s3 % 4 * 64 + s4) :: bs)
        | _, _, _, _, _ => none
  | [] => some []
  | _ => none

/-! ## JSON values (shape of the JSON bodies the endpoints return) -/

inductive J where
  | str (s : String)
  | num (q : ℚ)
  | bool (b : Bool)
  | obj (fields : List (String × J))

/-- Field lookup in a JSON object field list. -/
def findField : List (String × J) → String → Option J
  | [], _ => none
  | (k0, v) :: rest, k => if k0 = k then some v else findField rest k

/-- Field lookup in a JSON value (`none` on non-objects). -/
def getField : J → String → Option J
  | .obj fs, k => findField fs k
  | _, _ => none

/-! ## Data model translated from `src/app.py` -/

/-- A Python exception escaping an external call: the code treats `TypeError`
specially (`model.generate` fallback), every other exception uniformly. -/
inductive PyExc where
  | typeError (msg : String)
  | otherExc (msg : String)
deriving DecidableEq

/-- `str(e)` for an exception. -/
def PyExc.msg : PyExc → String
  | .typeError m => m
  | .otherExc m => m

/-- dtype tag of a numpy array (`astype(np.float32)` sets `float32`). -/
inductive DType where
  | float32
  | float64
  | othert
deriving DecidableEq

/-- A numpy array: shape, flat data (real-valued semantics of the float
samples; the code only compares and clips them, never rounds), dtype. -/
structure NDArray where
  shape : List Nat
  data : List ℚ
  dtype : DType
deriving DecidableEq

/-- `np.clip(x, -1.0, 1.0)` on one sample: values below -1 become -1, values
above 1 become 1, everything else is unchanged (never scaled). -/
def clipQ (x : ℚ) : ℚ := if x < -1 then -1 else if 1 < x then 1 else x

/-- `np.squeeze`: drop all axes of size 1. -/
def squeezeArr (a : NDArray) : NDArray :=
  ⟨a.shape.filter (fun d => d ≠ 1), a.data, a.dtype⟩

/-- The post-processing `src/app.py` applies to the model output array before
`sf.write`: squeeze when `ndim > 1`, clip to `[-1, 1]`, `astype(np.float32)`. -/
def postWritten (a : NDArray) : NDArray :=
  let a1 := if 1 < a.shape.length then squeezeArr a else a
  ⟨a1.shape, a1.data.map clipQ, DType.float32⟩

/-- Opaque handle for the tensors the processor prepares (`inputs` dict moved
to the device; the device move does not change the data). -/
abbrev Inputs := Nat

/-- Whether the `temperature=` keyword is passed to `model.generate`
(`gen_kwargs` always carries the request temperature on the first call). -/
inductive TempArg where
  | withTemp (t : ℚ)
  | noTemp
deriving DecidableEq

/-- `model.generate` output: a tensor, or a list/tuple the code indexes at 0. -/
inductive GenOut where
  | tensor (a : NDArray)
  | seq (l : List NDArray)
deriving DecidableEq

/-- One turn of the chat-template conversation the handler builds. -/
inductive TurnContent where
  | text (s : String)
  | audioPath (p : String)
deriving DecidableEq

structure Turn where
  role : String
  content : TurnContent
deriving DecidableEq

/-- Pydantic request model `TextInput` (after validation; `temperature`
defaults to 0.7, `speaker_id` to "0"). -/
structure TextInput where
  text : String
  language : Option String
  temperature : ℚ
  speaker_id : String
  reference_audio_url : Option String
deriving DecidableEq

/-- The raw typed `/generate` request body before pydantic validation
(`none` fields are absent and take the declared defaults). -/
structure RawGen where
  text : String
  language : Option String
  temperature : Option ℚ
  speaker_id : Option String
  reference_audio_url : Option String
deriving DecidableEq

/-- Pydantic validation of `TextInput`: `text` has `min_length=1,
max_length=500`; `temperature` has `ge=0.0, le=2.0` and default `0.7`. -/
def mkTextInput (b : RawGen) : Except PyExc TextInput :=
  if b.text.length < 1 then
    .error (.otherExc "1 validation error for TextInput: text too short")
  else if 500 < b.text.length then
    .error (.otherExc "1 validation error for TextInput: text too long")
  else
    match b.temperature with
    | some t =>
        if t < 0 then
          .error (.otherExc "1 validation error for TextInput: temperature out of range")
        else if 2 < t then
          .error (.otherExc "1 validation error for TextInput: temperature out of range")
        else
          .ok ⟨b.text, b.language, t, b.speaker_id.getD "0", b.reference_audio_url⟩
    | none => .ok ⟨b.text, b.language, 7/10, b.speaker_id.getD "0", b.reference_audio_url⟩

/-- The loaded pretrained model: configured sampling rates plus the opaque
`generate` entry point (which may raise, in particular `TypeError` when it
does not accept the `temperature` keyword). -/
structure Model where
  cfgSampleRate : Option Nat
  cfgSamplingRate : Option Nat
  generate : Inputs → TempArg → Except PyExc GenOut

/-- The loaded processor: `apply_chat_template`, plain-call fallback, and the
feature-extractor sampling rate. -/
structure Processor where
  feSamplingRate : Option Nat
  applyChatTemplate : List Turn → Except PyExc Inputs
  callText : String → Except PyExc Inputs

inductive Device where
  | cuda
  | cpu
deriving DecidableEq

/-- The module-level globals `model`, `processor`, `device`. -/
structure GState where
  model : Option Model
  processor : Option Processor
  device : Option Device

/-- Environment configuration read at import time. -/
structure Config where
  modelName : String
  apiKey : String

/-- External side-effecting libraries the handler calls: fetching/resampling
reference audio (`none` models any exception in that guarded block, which the
code logs and skips), and `soundfile.sf.write` producing the WAV bytes. -/
structure Ext where
  fetchRef : String → Option String
  sfWrite : NDArray → Nat → List (Fin 256)

/-- Python `x or "0"` on the speaker id (empty string is falsy). -/
def pyRole (s : String) : String := if s = "" then "0" else s

/-- Python `a or b` where `a` is an optional int (0 and None are falsy). -/
def pyOrN : Option Nat → Nat → Nat
  | some n, b => if n = 0 then b else n
  | none, b => b

/-- The sampling-rate chain: `model.config.sample_rate or
model.config.sampling_rate or processor.feature_extractor.sampling_rate or
24000`. -/
def rateOf (M : Model) (P : Processor) : Nat :=
  pyOrN M.cfgSampleRate (pyOrN M.cfgSamplingRate (pyOrN P.feSamplingRate 24000))

/-! ## Observable events of a request (for ordering and liveness claims) -/

inductive Event where
  | loadCall
  | validated (ti : TextInput)
  | procTemplate (conv : List Turn)
  | procSimple (text : String)
  | modelCall (inputs : Inputs) (t : TempArg)
  | post (arr : NDArray)
deriving DecidableEq

def isLoadEv : Event → Bool
  | .loadCall => true
  | _ => false

/-! ## The generate pipeline (`generate_audio` in `src/app.py`) -/

/-- The conversation the handler builds: an optional reference-audio context
turn (skipped when the URL is falsy or fetching raises) followed by the text
turn. -/
def conversationOf (ext : Ext) (ti : TextInput) : List Turn :=
  (match ti.reference_audio_url with
   | some url =>
       if url = "" then []
       else
         match ext.fetchRef url with
         | some path => [⟨pyRole ti.speaker_id, .audioPath path⟩]
         | none => []
   | none => []) ++ [⟨pyRole ti.speaker_id, .text ti.text⟩]

/-- Input preparation: `processor.apply_chat_template(conversation, ...)`,
falling back to `processor(text=..., return_tensors="pt")` on any exception;
an exception from the fallback propagates. -/
def prepareInputs (P : Processor) (conv : List Turn) (text : String) :
    Except PyExc Inputs × List Event :=
  match P.applyChatTemplate conv with
  | .ok i => (.ok i, [.procTemplate conv])
  | .error _ =>
      match P.callText text with
      | .ok i => (.ok i, [.procTemplate conv, .procSimple text])
      | .error e => (.error e, [.procTemplate conv, .procSimple text])

/-- Model invocation with the defensive fallback: `model.generate(**inputs,
output_audio=True, temperature=...)`, retried once without the temperature
keyword if and only if the first call raises `TypeError`. Returns the result
and the list of calls actually made. -/
def modelInvoke (M : Model) (inputs : Inputs) (t : ℚ) :
    Except PyExc GenOut × List (Inputs × TempArg) :=
  match M.generate inputs (.withTemp t) with
  | .ok g => (.ok g, [(inputs, .withTemp t)])
  | .error (.typeError _) =>
      (M.generate inputs .noTemp, [(inputs, .withTemp t), (inputs, .noTemp)])
  | .error (.otherExc m) => (.error (.otherExc m), [(inputs, .withTemp t)])

/-- Pulling the array out of the generate result: `audio_output[0]` for a
list/tuple (IndexError on an empty one), the tensor itself otherwise. -/
def extractArr : GenOut → Except PyExc NDArray
  | .tensor a => .ok a
  | .seq [] => .error (.otherExc "list index out of range")
  | .seq (a :: _) => .ok a

def mkCallEv (c : Inputs × TempArg) : Event := .modelCall c.1 c.2

/-- An `HTTPException(status_code=..., detail=...)`. -/
structure HErr where
  status : Nat
  detail : String
deriving DecidableEq

/-- `f"Error generating audio: {str(e)}"`, the 500 detail. -/
def genErrMsg (e : PyExc) : String := "Error generating audio: " ++ e.msg

/-- Successful generation: the WAV byte stream together with the array and
sampling rate that were written. -/
structure GenOk where
  wavBytes : List (Fin 256)
  written : NDArray
  rate : Nat

/-- The body of `generate_audio`: the 503 guard when the globals are unset,
then conversation building, input preparation, model invocation with the
TypeError fallback, post-processing and WAV serialization; any exception in
the pipeline becomes an `HTTPException(500, ...)`. -/
def generate_audio (ext : Ext) (st : GState) (ti : TextInput) :
    Except HErr GenOk × List Event :=
  match st.model, st.processor with
  | some M, some P =>
      let conv := conversationOf ext ti
      match prepareInputs P conv ti.text with
      | (.error e, tr) => (.error ⟨500, genErrMsg e⟩, tr)
      | (.ok inputs, tr) =>
          match modelInvoke M inputs ti.temperature with
          | (.error e, calls) =>
              (.error ⟨500, genErrMsg e⟩, tr ++ calls.map mkCallEv)
          | (.ok g0, calls) =>
              match extractArr g0 with
              | .error e =>
                  (.error ⟨500, genErrMsg e⟩, tr ++ calls.map mkCallEv)
              | .ok a =>
                  let written := postWritten a
                  let rate := rateOf M P
                  (.ok ⟨ext.sfWrite written rate, written, rate⟩,
                   tr ++ calls.map mkCallEv ++ [.post written])
  | _, _ => (.error ⟨503, "Model not loaded. Please check server logs."⟩, [])

/-! ## API-key check (`verify_api_key`) -/

/-- `verify_api_key`: allow everything when no `API_KEY` is configured;
otherwise 401 when the `X-API-Key` header is falsy (absent or empty) or does
not match. -/
def verify_api_key (apiKey : String) (x : Option String) : Except HErr Unit :=
  if apiKey = "" then .ok ()
  else
    match x with
    | none =>
        .error ⟨401, "Unauthorized: Missing custom API key. Please provide X-API-Key header."⟩
    | some k =>
        if k = "" then
          .error ⟨401, "Unauthorized: Missing custom API key. Please provide X-API-Key header."⟩
        else if k ≠ apiKey then
          .error ⟨401, "Unauthorized: Invalid custom API key."⟩
        else .ok ()

/-! ## The RunPod job envelope (`runpod_handler`) -/

/-- The `input` object of a RunPod job (`.get` defaults: empty text, no
language, no temperature). -/
structure JobInput where
  text : String
  language : Option String
  temperature : Option ℚ
deriving DecidableEq

def jobInputDefault : JobInput := ⟨"", none, none⟩

/-- A RunPod job body: `job.get("input", \x7b\x7d)`. -/
structure Job where
  input : Option JobInput
deriving DecidableEq

def jobText (j : Job) : String := (j.input.getD jobInputDefault).text

/-- The `/generate` body carrying the same text, language and temperature as a
job (speaker id and reference audio left to their defaults, as
`runpod_handler` does). -/
def rawOfJob (j : Job) : RawGen :=
  let ji := j.input.getD jobInputDefault
  ⟨ji.text, ji.language, ji.temperature, none, none⟩

/-- The `output` object of a successful job response. -/
structure RunOutput where
  audio_base64 : String
  audio_format : String
  text : String

/-- A job response: an `output` object or an `error` string (never an HTTP
error status). -/
inductive RunResp where
  | output (o : RunOutput)
  | err (m : String)

/-- `runpod_handler`: extract the input, reject falsy text, build a
`TextInput` (validation errors are caught), call `generate_audio` (any
`HTTPException` it raises is caught and stringified as
`"status: detail"`), collect the streamed bytes and base64-encode them. -/
def runpod_handler (ext : Ext) (st : GState) (j : Job) : RunResp × List Event :=
  let ji := j.input.getD jobInputDefault
  if ji.text = "" then (.err "No text provided in input", [])
  else
    match mkTextInput ⟨ji.text, ji.language, some (ji.temperature.getD (7/10)), none, none⟩ with
    | .error e => (.err e.msg, [])
    | .ok ti =>
        match generate_audio ext st ti with
        | (.ok g, tr) =>
            (.output ⟨String.mk (b64encodeBytes g.wavBytes), "wav", ji.text⟩, tr)
        | (.error e, tr) => (.err (toString e.status ++ ": " ++ e.detail), tr)

def runRespToJ : RunResp → J
  | .output o => .obj [("output", .obj
      [("audio_base64", .str o.audio_base64),
       ("audio_format", .str o.audio_format),
       ("text", .str o.text)])]
  | .err m => .obj [("error", .str m)]

/-! ## HTTP routing -/

inductive Path where
  | root
  | health
  | ping
  | generate
  | run
deriving DecidableEq

inductive ReqBody where
  | empty
  | gen (b : RawGen)
  | run (j : Job)

structure Request where
  path : Path
  xApiKey : Option String
  body : ReqBody

inductive RBody where
  | json (j : J)
  | stream (bytes : List (Fin 256)) (mediaType : String)

structure Response where
  status : Nat
  body : RBody

/-- Field lookup in a JSON response body (`none` for streamed bodies). -/
def getFieldR (r : Response) (k : String) : Option J :=
  match r.body with
  | .json jv => getField jv k
  | _ => none

/-- Responses carrying an `HTTPException` detail (FastAPI renders them as a
JSON object with a single `detail` field). -/
def errResponse (e : HErr) : Response :=
  ⟨e.status, .json (.obj [("detail", .str e.detail)])⟩

def pingBody : J := .obj [("status", .str "ok")]

/-- The authenticated routes (everything except `/ping`). -/
def routeAuthed (cfg : Config) (ext : Ext) (st : GState) (req : Request) :
    Response × GState × List Event :=
  match req.path, req.body with
  | .root, _ =>
      (⟨200, .json (.obj
        [("service", .str "Sesame CSM 1B TTS API"),
         ("status", .str "running"),
         ("model_loaded", .bool st.model.isSome),
         ("auth_enabled", .bool (cfg.apiKey != ""))])⟩, st, [])
  | .health, _ =>
      match st.model with
      | none =>
          (⟨503, .json (.obj
            [("status", .str "unhealthy"), ("message", .str "Model not loaded")])⟩,
           st, [])
      | some _ =>
          (⟨200, .json (.obj
            [("status", .str "healthy"), ("model", .str cfg.modelName)])⟩, st, [])
  | .ping, _ => (⟨200, .json pingBody⟩, st, [])
  | .generate, .gen b =>
      match mkTextInput b with
      | .error e => (⟨422, .json (.obj [("detail", .str e.msg)])⟩, st, [])
      | .ok ti =>
          match generate_audio ext st ti with
          | (.ok g, tr) =>
              (⟨200, .stream g.wavBytes "audio/wav"⟩, st, .validated ti :: tr)
          | (.error e, tr) => (errResponse e, st, .validated ti :: tr)
  | .run, .run j =>
      match runpod_handler ext st j with
      | (rr, tr) => (⟨200, .json (runRespToJ rr)⟩, st, tr)
  | _, _ => (⟨422, .json (.obj [("detail", .str "missing request body")])⟩, st, [])

/-- Full request handling: `/ping` is served without the API-key dependency;
every other path runs `verify_api_key` first and is rejected with its 401
before any handler body runs. -/
def handleRequest (cfg : Config) (ext : Ext) (st : GState) (req : Request) :
    Response × GState × List Event :=
  if req.path = .ping then (⟨200, .json pingBody⟩, st, [])
  else
    match verify_api_key cfg.apiKey req.xApiKey with
    | .error e => (errResponse e, st, [])
    | .ok _ => routeAuthed cfg ext st req

/-! ## Process lifecycle (`lifespan` + `load_model`) -/

/-- The outcomes of the external steps `load_model` performs, in source
order: the transformers imports (both before any global is assigned),
`torch.device` (total), `AutoProcessor.from_pretrained`,
`AutoModel.from_pretrained` (either device branch), `model.to(device)` (cpu
branch only), and `model.eval()`. -/
structure LoadOracle where
  importTransformers : Except PyExc Unit
  deviceRes : Device
  fromPretrainedProc : Except PyExc Processor
  fromPretrainedModel : Except PyExc Model
  toDevice : Model → Except PyExc Model
  evalModel : Model → Except PyExc Unit

/-- `load_model`, with its incremental assignments to the globals: `device`
is set first, then `processor`, then `model` (reassigned by `.to(device)` on
the cpu branch before `model.eval()` runs).  A step that raises re-raises out
of `load_model` but leaves every global assigned so far in place — in
particular a failing model load leaves the processor set, and a failing
`.to`/`.eval` leaves even the model set. -/
def load_model (lo : LoadOracle) : GState × Except PyExc Unit :=
  match lo.importTransformers with
  | .error e => (⟨none, none, none⟩, .error e)
  | .ok _ =>
      let d := lo.deviceRes
      match lo.fromPretrainedProc with
      | .error e => (⟨none, none, some d⟩, .error e)
      | .ok P =>
          match lo.fromPretrainedModel with
          | .error e => (⟨none, some P, some d⟩, .error e)
          | .ok M0 =>
              match d with
              | .cuda =>
                  match lo.evalModel M0 with
                  | .error e => (⟨some M0, some P, some d⟩, .error e)
                  | .ok _ => (⟨some M0, some P, some d⟩, .ok ())
              | .cpu =>
                  match lo.toDevice M0 with
                  | .error e => (⟨some M0, some P, some d⟩, .error e)
                  | .ok M1 =>
                      match lo.evalModel M1 with
                      | .error e => (⟨some M1, some P, some d⟩, .error e)
                      | .ok _ => (⟨some M1, some P, some d⟩, .ok ())

/-- The startup half of `lifespan`: call `load_model` once; an exception is
swallowed (so that health checks can report the failure) and the globals are
left exactly as `load_model` left them. -/
def startup (lo : LoadOracle) : GState × List Event :=
  ((load_model lo).1, [.loadCall])

/-- One request of the process: handle it from the current globals, keep the
resulting globals, append the observable events. -/
def procStep (cfg : Config) (ext : Ext) (acc : GState × List Event) (req : Request) :
    GState × List Event :=
  let r := handleRequest cfg ext acc.1 req
  (r.2.1, acc.2 ++ r.2.2)

/-- A whole process: startup once, then the given requests in order. -/
def runProcess (cfg : Config) (ext : Ext) (lo : LoadOracle) (reqs : List Request) :
    GState × List Event :=
  reqs.foldl (procStep cfg ext) (startup lo)

/-! ## Concrete fixtures (loaded-state oracles used to witness the claims) -/

def modelW : Model :=
  ⟨some 24000, none, fun _ _ => .ok (.tensor ⟨[3], [0, 1, 2], .othert⟩)⟩

def procW : Processor := ⟨none, fun _ => .ok 0, fun _ => .ok 0⟩

def extW : Ext := ⟨fun _ => none, fun _ _ => [72, 105]⟩

def stW : GState := ⟨some modelW, some procW, some .cpu⟩

def stNone : GState := ⟨none, none, none⟩

def cfgW : Config := ⟨"saishah/sesame-csm-1b", ""⟩

def cfgSecret : Config := ⟨"saishah/sesame-csm-1b", "secret"⟩

def rawW : RawGen := ⟨"hi", none, none, none, none⟩

def tiW : TextInput := ⟨"hi", none, 7/10, "0", none⟩

def jobW : Job := ⟨some ⟨"hi", none, some 1⟩⟩

/-- A load oracle whose every step succeeds. -/
def loOkW : LoadOracle :=
  ⟨.ok (), .cpu, .ok procW, .ok modelW, fun m => .ok m, fun _ => .ok ()⟩

/-- A load oracle whose `AutoModel.from_pretrained` step raises after the
processor was already assigned. -/
def loFail : LoadOracle :=
  ⟨.ok (), .cpu, .ok procW, .error (.otherExc "model load failed"),
   fun m => .ok m, fun _ => .ok ()⟩

/-- The output object the job envelope produces for `jobW` in state `stW`:
the bytes 72, 105 encode to "SGk=". -/
def oJW : J := .obj
  [("audio_base64", .str "SGk="), ("audio_format", .str "wav"), ("text", .str "hi")]

/-! ## Base64 lemmas -/

theorem sextet_inv_fin : ∀ s : Fin 64, sextetVal (sextetChar s.val) = some s.val := by
  decide

theorem sextet_ne_pad_fin : ∀ s : Fin 64, sextetChar s.val ≠ '=' := by
  decide

theorem sextet_inv (n : Nat) (h : n < 64) : sextetVal (sextetChar n) = some n :=
  sextet_inv_fin ⟨n, h⟩

theorem sextet_ne_pad (n : Nat) (h : n < 64) : sextetChar n ≠ '=' :=
  sextet_ne_pad_fin ⟨n, h⟩

theorem toByte_val (a : Fin 256) : toByte a.val = a := by
  have := a.isLt
  apply Fin.ext
  simp [toByte, Nat.mod_eq_of_lt this]

/-- Decoding inverts encoding: the base64 string the job envelope returns
decodes back to exactly the encoded byte stream. -/
theorem b64_roundtrip : ∀ bs : List (Fin 256),
    b64decodeBytes (b64encodeBytes bs) = some bs
  | [] => rfl
  | [a] => by
      have ha := a.isLt
      simp only [b64encodeBytes, b64decodeBytes]
      rw [if_pos (by simp)]
      rw [sextet_inv (a.val / 4) (by omega), sextet_inv (a.val % 4 * 16) (by omega)]
      have hv : a.val / 4 * 4 + a.val % 4 * 16 / 16 = a.val := by omega
      simp only [hv, toByte_val]
  | [a, b] => by
      have ha := a.isLt
      have hb := b.isLt
      simp only [b64encodeBytes, b64decodeBytes]
      rw [if_neg (fun h => sextet_ne_pad (b.val % 16 * 4) (by omega) h.1)]
      rw [if_pos (by simp)]
      rw [sextet_inv (a.val / 4) (by omega),
          sextet_inv (a.val % 4 * 16 + b.val / 16) (by omega),
          sextet_inv (b.val % 16 * 4) (by omega)]
      have h1 : a.val / 4 * 4 + (a.val % 4 * 16 + b.val / 16) / 16 = a.val := by omega
      have h2 : (a.val % 4 * 16 + b.val / 16) % 16 * 16 + b.val % 16 * 4 / 4 = b.val := by
        omega
      simp only [h1, h2, toByte_val]
  | a :: b :: c :: rest => by
      have ha := a.isLt
      have hb := b.isLt
      have hc := c.isLt
      simp only [b64encodeBytes, b64decodeBytes]
      rw [if_neg (fun h => sextet_ne_pad (b.val % 16 * 4 + c.val / 64) (by omega) h.1)]
      rw [if_neg (fun h => sextet_ne_pad (c.val % 64) (by omega) h.1)]
      rw [sextet_inv (a.val / 4) (by omega),
          sextet_inv (a.val % 4 * 16 + b.val / 16) (by omega),
          sextet_inv (b.val % 16 * 4 + c.val / 64) (by omega),
          sextet_inv (c.val % 64) (by omega),
          b64_roundtrip rest]
      have h1 : a.val / 4 * 4 + (a.val % 4 * 16 + b.val / 16) / 16 = a.val := by omega
      have h2 : (a.val % 4 * 16 + b.val / 16) % 16 * 16 +
          (b.val % 16 * 4 + c.val / 64) / 4 = b.val := by omega
      have h3 : (b.val % 16 * 4 + c.val / 64) % 4 * 64 + c.val % 64 = c.val := by omega
      simp only [h1, h2, h3, toByte_val]

/-! ## Basic handler lemmas -/

theorem handleRequest_state (cfg : Config) (ext : Ext) (st : GState) (req : Request) :
    (handleRequest cfg ext st req).2.1 = st := by
  unfold handleRequest routeAuthed
  repeat' split
  all_goals rfl

theorem isLoadEv_validated (ti : TextInput) : isLoadEv (.validated ti) = false := rfl

theorem isLoadEv_procTemplate (c : List Turn) : isLoadEv (.procTemplate c) = false := rfl

theorem isLoadEv_procSimple (s : String) : isLoadEv (.procSimple s) = false := rfl

theorem isLoadEv_modelCall (i : Inputs) (t : TempArg) : isLoadEv (.modelCall i t) = false := rfl

theorem isLoadEv_post (a : NDArray) : isLoadEv (.post a) = false := rfl

theorem isLoadEv_mkCallEv (c : Inputs × TempArg) : isLoadEv (mkCallEv c) = false := rfl

theorem countP_load_calls (l : List (Inputs × TempArg)) :
    (l.map mkCallEv).countP isLoadEv = 0 := by
  induction l with
  | nil => rfl
  | cons c l ih =>
      simp [List.countP_cons, mkCallEv, isLoadEv_modelCall, ih]

theorem prepare_no_load (P : Processor) (conv : List Turn) (text : String) :
    (prepareInputs P conv text).2.countP isLoadEv = 0 := by
  unfold prepareInputs
  repeat' split
  all_goals
    simp [List.countP_cons, isLoadEv_procTemplate, isLoadEv_procSimple]

theorem generate_audio_no_load (ext : Ext) (st : GState) (ti : TextInput) :
    (generate_audio ext st ti).2.countP isLoadEv = 0 := by
  unfold generate_audio
  split
  case h_2 => rfl
  case h_1 M P hm hp =>
    dsimp only
    split
    case h_1 e tr h =>
      have : tr = (prepareInputs P (conversationOf ext ti) ti.text).2 := by rw [h]
      simp [this, prepare_no_load]
    case h_2 inputs tr h =>
      have htr : tr = (prepareInputs P (conversationOf ext ti) ti.text).2 := by rw [h]
      split
      case h_1 e calls hc =>
        simp [List.countP_append, htr, prepare_no_load, countP_load_calls,
          isLoadEv_mkCallEv]
      case h_2 g0 calls hc =>
        split
        · simp [List.countP_append, htr, prepare_no_load, countP_load_calls,
            isLoadEv_mkCallEv]
        · simp [List.countP_append, List.countP_cons, htr, prepare_no_load,
            countP_load_calls, isLoadEv_post, isLoadEv_mkCallEv]

theorem runpod_no_load (ext : Ext) (st : GState) (j : Job) :
    (runpod_handler ext st j).2.countP isLoadEv = 0 := by
  unfold runpod_handler
  dsimp only
  split
  · rfl
  split
  · rfl
  case h_2 ti hti =>
    split
    case h_1 g tr h =>
      have : tr = (generate_audio ext st ti).2 := by rw [h]
      simp [this, generate_audio_no_load]
    case h_2 e tr h =>
      have : tr = (generate_audio ext st ti).2 := by rw [h]
      simp [this, generate_audio_no_load]

theorem handleRequest_no_load (cfg : Config) (ext : Ext) (st : GState) (req : Request) :
    (handleRequest cfg ext st req).2.2.countP isLoadEv = 0 := by
  unfold handleRequest routeAuthed
  split
  · rfl
  split
  · rfl
  split
  · rfl
  · split <;> rfl
  · rfl
  · -- generate
    split
    · rfl
    case h_2 ti hti =>
      split
      case h_1 g tr h =>
        have : tr = (generate_audio ext st ti).2 := by rw [h]
        simp [List.countP_cons, this, generate_audio_no_load, isLoadEv_validated]
      case h_2 e tr h =>
        have : tr = (generate_audio ext st ti).2 := by rw [h]
        simp [List.countP_cons, this, generate_audio_no_load, isLoadEv_validated]
  · -- run
    split
    next rr tr h =>
      have : tr = (runpod_handler ext st ‹Job›).2 := by rw [h]
      simp [this, runpod_no_load]
  · rfl

theorem mkTextInput_runpod (t : String) (l : Option String) (tp : Option ℚ) :
    mkTextInput ⟨t, l, some (tp.getD (7/10)), none, none⟩ =
      mkTextInput ⟨t, l, tp, none, none⟩ := by
  cases tp with
  | some q => rfl
  | none =>
      unfold mkTextInput
      norm_num

theorem startup_trace (lo : LoadOracle) : (startup lo).2 = [.loadCall] := rfl

theorem foldl_proc_inv (cfg : Config) (ext : Ext) :
    ∀ (reqs : List Request) (acc : GState × List Event),
      (reqs.foldl (procStep cfg ext) acc).1 = acc.1 ∧
      (reqs.foldl (procStep cfg ext) acc).2.countP isLoadEv = acc.2.countP isLoadEv ∧
      ∃ s, (reqs.foldl (procStep cfg ext) acc).2 = acc.2 ++ s := by
  intro reqs
  induction reqs with
  | nil => exact fun acc => ⟨rfl, rfl, [], by simp⟩
  | cons r rs ih =>
      intro acc
      simp only [List.foldl_cons]
      obtain ⟨h1, h2, s, hs⟩ := ih (procStep cfg ext acc r)
      refine ⟨?_, ?_, ?_⟩
      · rw [h1]; simp [procStep, handleRequest_state]
      · rw [h2]; simp [procStep, List.countP_append, handleRequest_no_load]
      · refine ⟨(handleRequest cfg ext acc.1 r).2.2 ++ s, ?_⟩
        rw [hs]; simp [procStep, List.append_assoc]

/-! ## The claims -/

/-- Claim C6: the liveness probe is independent of the process state. For
every configuration, oracle environment, global state, header value and body,
a request to /ping is answered 200 with body consisting of the single field
status set to "ok", the globals are unchanged and no events occur: the result
depends neither on model readiness nor on the API key nor on headers. -/
theorem ping_liveness (cfg : Config) (ext : Ext) (st : GState) (key : Option String)
    (b : ReqBody) :
    handleRequest cfg ext st ⟨.ping, key, b⟩ =
      (⟨200, .json (.obj [("status", .str "ok")])⟩, st, []) := rfl

/-- Claim C2: the optional shared-secret check gates all endpoints except the
liveness probe. When the configured API key is non-empty, any request to a
non-ping path whose X-API-Key header is absent or differs from the key is
answered 401 with no handler events and unchanged state; when the key is
empty the check passes and the authenticated route runs; /ping never performs
the check. -/
theorem api_key_gate (cfg : Config) (ext : Ext) (st : GState) (req : Request) :
    (cfg.apiKey ≠ "" → req.path ≠ .ping →
       (req.xApiKey = none ∨ ∀ s, req.xApiKey = some s → s ≠ cfg.apiKey) →
       ∃ d, handleRequest cfg ext st req =
         (⟨401, .json (.obj [("detail", .str d)])⟩, st, []))
    ∧ (cfg.apiKey = "" → verify_api_key cfg.apiKey req.xApiKey = .ok ())
    ∧ (cfg.apiKey = "" → req.path ≠ .ping →
        handleRequest cfg ext st req = routeAuthed cfg ext st req)
    ∧ (∀ key b, handleRequest cfg ext st ⟨.ping, key, b⟩ =
        (⟨200, .json (.obj [("status", .str "ok")])⟩, st, [])) := by
  refine ⟨?_, ?_, ?_, fun key b => rfl⟩
  · intro hk hp hbad
    have hv : ∃ d, verify_api_key cfg.apiKey req.xApiKey = .error ⟨401, d⟩ := by
      unfold verify_api_key
      rw [if_neg hk]
      cases hx : req.xApiKey with
      | none => exact ⟨_, rfl⟩
      | some s =>
          rcases hbad with h | h
          · rw [hx] at h; cases h
          · have hs := h s hx
            dsimp only
            by_cases hse : s = ""
            · rw [if_pos hse]; exact ⟨_, rfl⟩
            · rw [if_neg hse, if_pos hs]; exact ⟨_, rfl⟩
    obtain ⟨d, hd⟩ := hv
    refine ⟨d, ?_⟩
    unfold handleRequest
    rw [if_neg hp, hd]
    rfl
  · intro hk
    unfold verify_api_key
    rw [if_pos hk]
  · intro hk hp
    unfold handleRequest
    rw [if_neg hp]
    have hv : verify_api_key cfg.apiKey req.xApiKey = .ok () := by
      unfold verify_api_key; rw [if_pos hk]
    rw [hv]

theorem api_key_gate_witness :
    ∃ d, handleRequest cfgSecret extW stW ⟨.generate, none, .gen rawW⟩ =
      (⟨401, .json (.obj [("detail", .str d)])⟩, stW, []) :=
  (api_key_gate cfgSecret extW stW ⟨.generate, none, .gen rawW⟩).1
    (by decide) (by decide) (Or.inl rfl)

/-- Claim C10: /health reports model readiness exactly. Under a passing key
check it answers 503 with the unhealthy body if and only if the global model
is unset, otherwise 200 with the healthy body naming the configured model;
and no handler of any path modifies the globals, so the result is stable
across requests. -/
theorem health_reflects_model (cfg : Config) (ext : Ext) (st : GState) (key : Option String)
    (hauth : verify_api_key cfg.apiKey key = .ok ()) :
    ((handleRequest cfg ext st ⟨.health, key, .empty⟩).1 =
        ⟨503, .json (.obj [("status", .str "unhealthy"), ("message", .str "Model not loaded")])⟩
      ↔ st.model = none)
    ∧ (∀ M, st.model = some M →
        (handleRequest cfg ext st ⟨.health, key, .empty⟩).1 =
          ⟨200, .json (.obj [("status", .str "healthy"), ("model", .str cfg.modelName)])⟩)
    ∧ (∀ req, (handleRequest cfg ext st req).2.1 = st) := by
  refine ⟨?_, ?_, fun req => handleRequest_state cfg ext st req⟩
  · cases hm : st.model with
    | none => simp [handleRequest, hauth, routeAuthed, hm]
    | some M => simp [handleRequest, hauth, routeAuthed, hm]
  · intro M hm
    simp [handleRequest, hauth, routeAuthed, hm]

theorem health_reflects_model_witness :
    (handleRequest cfgW extW stW ⟨.health, none, .empty⟩).1 =
      ⟨200, .json (.obj [("status", .str "healthy"), ("model", .str cfgW.modelName)])⟩ :=
  (health_reflects_model cfgW extW stW none rfl).2.1 modelW rfl

/-- Claim C7, the original statement is refuted: `load_model` assigns the
globals incrementally (`device` at line 95, `processor` at line 100, `model`
at lines 110-124), so a failure in `AutoModel.from_pretrained` re-raised out
of `load_model` and swallowed by `lifespan` leaves the processor (and device)
set while the claim asserts both `model` and `processor` remain `None` after
a failed startup load. Concretely, with `loFail` the load fails yet the
processor global is not `None`. -/
theorem load_model_once_counterexample :
    (load_model loFail).2 = .error (.otherExc "model load failed") ∧
    (load_model loFail).1.model = none ∧
    (load_model loFail).1.processor = some procW ∧
    (load_model loFail).1.processor ≠ none ∧
    (startup loFail).1 = (load_model loFail).1 :=
  ⟨rfl, rfl, rfl, Option.some_ne_none procW, rfl⟩

/-- Claim C7, as amended: the model is loaded at most once per process. In
every process run the load call happens exactly once and first, during
startup; every request leaves the globals exactly as `load_model` left them
and loading is never retried; no request handler ever emits a load event. If
the startup load fails, the globals keep exactly what had been assigned
before the failing step: a failed transformers import leaves model, processor
and device unset; a processor-load failure leaves only the device set; a
model-load (`from_pretrained`) failure leaves device and processor set with
`model` still `None`; once `from_pretrained` succeeded the processor and
model globals are set even if a later step (`.to(device)`, `.eval()`)
fails. -/
theorem load_model_once (cfg : Config) (ext : Ext) (lo : LoadOracle) (reqs : List Request) :
    (runProcess cfg ext lo reqs).2.countP isLoadEv = 1
    ∧ (runProcess cfg ext lo reqs).2.head? = some .loadCall
    ∧ (runProcess cfg ext lo reqs).1 = (load_model lo).1
    ∧ (∀ e, lo.importTransformers = .error e →
        (load_model lo).1 = ⟨none, none, none⟩)
    ∧ (∀ e, lo.importTransformers = .ok () → lo.fromPretrainedProc = .error e →
        (load_model lo).1 = ⟨none, none, some lo.deviceRes⟩)
    ∧ (∀ e P, lo.importTransformers = .ok () → lo.fromPretrainedProc = .ok P →
        lo.fromPretrainedModel = .error e →
        (load_model lo).1 = ⟨none, some P, some lo.deviceRes⟩)
    ∧ (∀ P M0, lo.importTransformers = .ok () → lo.fromPretrainedProc = .ok P →
        lo.fromPretrainedModel = .ok M0 →
        (load_model lo).1.processor = some P ∧ (load_model lo).1.model.isSome = true)
    ∧ (∀ st req, (handleRequest cfg ext st req).2.2.countP isLoadEv = 0) := by
  obtain ⟨h1, h2, s, hs⟩ := foldl_proc_inv cfg ext reqs (startup lo)
  refine ⟨?_, ?_, ?_, ?_, ?_, ?_, ?_, fun st req => handleRequest_no_load cfg ext st req⟩
  · show (reqs.foldl (procStep cfg ext) (startup lo)).2.countP isLoadEv = 1
    rw [h2, startup_trace]
    rfl
  · show (reqs.foldl (procStep cfg ext) (startup lo)).2.head? = some .loadCall
    rw [hs, startup_trace]
    rfl
  · exact h1
  · intro e he
    unfold load_model
    rw [he]
  · intro e hi hp
    unfold load_model
    rw [hi, hp]
  · intro e P hi hp hm
    unfold load_model
    rw [hi, hp, hm]
  · intro P M0 hi hp hm
    unfold load_model
    rw [hi, hp, hm]
    dsimp only
    cases lo.deviceRes with
    | cuda =>
        dsimp only
        cases lo.evalModel M0 with
        | error e => exact ⟨rfl, rfl⟩
        | ok u => exact ⟨rfl, rfl⟩
    | cpu =>
        dsimp only
        cases lo.toDevice M0 with
        | error e => exact ⟨rfl, rfl⟩
        | ok M1 =>
            dsimp only
            cases lo.evalModel M1 with
            | error e => exact ⟨rfl, rfl⟩
            | ok u => exact ⟨rfl, rfl⟩

theorem load_model_once_witness :
    (load_model loFail).1 = ⟨none, some procW, some .cpu⟩ :=
  (load_model_once cfgW extW loFail [⟨.health, none, .empty⟩]).2.2.2.2.2.1
    (.otherExc "model load failed") procW rfl rfl rfl

theorem mkTextInput_ok_iff (b : RawGen) :
    (∃ ti, mkTextInput b = .ok ti) ↔
      (1 ≤ b.text.length ∧ b.text.length ≤ 500 ∧
        ∀ t, b.temperature = some t → 0 ≤ t ∧ t ≤ 2) := by
  constructor
  · rintro ⟨ti, hti⟩
    unfold mkTextInput at hti
    by_cases h1 : b.text.length < 1
    · simp [h1] at hti
    by_cases h2 : 500 < b.text.length
    · simp [h1, h2] at hti
    refine ⟨by omega, by omega, fun t htp => ?_⟩
    simp only [if_neg h1, if_neg h2] at hti
    rw [htp] at hti
    by_cases h3 : t < 0
    · simp [h3] at hti
    by_cases h4 : 2 < t
    · simp [h3, h4] at hti
    constructor <;> linarith
  · rintro ⟨hl, hr, htb⟩
    unfold mkTextInput
    rw [if_neg (by omega), if_neg (by omega)]
    cases htp : b.temperature with
    | none => exact ⟨_, rfl⟩
    | some t =>
        obtain ⟨ht0, ht2⟩ := htb t htp
        dsimp only
        rw [if_neg (not_lt.mpr ht0), if_neg (not_lt.mpr ht2)]
        exact ⟨_, rfl⟩

/-- Claim C5: request validation on /generate accepts a typed body exactly
when the text has between 1 and 500 characters and the temperature, when
given, lies in the closed interval from 0 to 2; a body failing validation is
answered 422 before the handler runs, with no processor or model event. -/
theorem validation_bounds (cfg : Config) (ext : Ext) (st : GState) (key : Option String)
    (b : RawGen) (hauth : verify_api_key cfg.apiKey key = .ok ()) :
    ((∃ ti, mkTextInput b = .ok ti) ↔
      (1 ≤ b.text.length ∧ b.text.length ≤ 500 ∧
        ∀ t, b.temperature = some t → 0 ≤ t ∧ t ≤ 2))
    ∧ (∀ e, mkTextInput b = .error e →
        handleRequest cfg ext st ⟨.generate, key, .gen b⟩ =
          (⟨422, .json (.obj [("detail", .str e.msg)])⟩, st, [])) := by
  refine ⟨mkTextInput_ok_iff b, ?_⟩
  intro e he
  simp [handleRequest, routeAuthed, hauth, he]

theorem validation_bounds_witness :
    handleRequest cfgW extW stW ⟨.generate, none, .gen ⟨"", none, none, none, none⟩⟩ =
      (⟨422, .json (.obj [("detail",
          .str "1 validation error for TextInput: text too short")])⟩, stW, []) :=
  (validation_bounds cfgW extW stW none ⟨"", none, none, none, none⟩ rfl).2
    (.otherExc "1 validation error for TextInput: text too short") rfl

/-- Claim C4: the defensive parameter fallback around model.generate. The
first call always passes the temperature keyword; the retry without it
happens exactly when the first call raises TypeError, and only once; a
non-TypeError exception from the first call is not retried and turns into
the 500 error of the generate pipeline. -/
theorem temperature_fallback (M : Model) (inputs : Inputs) (t : ℚ) (ext : Ext)
    (st : GState) (ti : TextInput) :
    ((modelInvoke M inputs t).2.head? = some (inputs, .withTemp t))
    ∧ (∀ g, M.generate inputs (.withTemp t) = .ok g →
        modelInvoke M inputs t = (.ok g, [(inputs, .withTemp t)]))
    ∧ (∀ m, M.generate inputs (.withTemp t) = .error (.typeError m) →
        modelInvoke M inputs t =
          (M.generate inputs .noTemp, [(inputs, .withTemp t), (inputs, .noTemp)]))
    ∧ (∀ m, M.generate inputs (.withTemp t) = .error (.otherExc m) →
        modelInvoke M inputs t = (.error (.otherExc m), [(inputs, .withTemp t)]))
    ∧ (∀ P tr, st.model = some M → st.processor = some P →
        prepareInputs P (conversationOf ext ti) ti.text = (.ok inputs, tr) →
        ∀ m, M.generate inputs (.withTemp ti.temperature) = .error (.otherExc m) →
        generate_audio ext st ti =
          (.error ⟨500, genErrMsg (.otherExc m)⟩,
           tr ++ [.modelCall inputs (.withTemp ti.temperature)])) := by
  refine ⟨?_, ?_, ?_, ?_, ?_⟩
  · unfold modelInvoke
    split <;> rfl
  · intro g h
    unfold modelInvoke
    rw [h]
  · intro m h
    unfold modelInvoke
    rw [h]
  · intro m h
    unfold modelInvoke
    rw [h]
  · intro P tr hm hp hprep m hgen
    unfold generate_audio
    rw [hm, hp]
    dsimp only
    rw [hprep]
    dsimp only
    have hmi : modelInvoke M inputs ti.temperature =
        (.error (.otherExc m), [(inputs, .withTemp ti.temperature)]) := by
      unfold modelInvoke
      rw [hgen]
    rw [hmi]
    rfl

theorem temperature_fallback_witness :
    modelInvoke modelW 0 (7/10) =
      (.ok (.tensor ⟨[3], [0, 1, 2], .othert⟩), [(0, .withTemp (7/10))]) :=
  (temperature_fallback modelW 0 (7/10) extW stW tiW).2.1 _ rfl

theorem modelInvoke_calls_inputs (M : Model) (inputs : Inputs) (t : ℚ) :
    ∀ c ∈ (modelInvoke M inputs t).2, c.1 = inputs := by
  intro c hc
  unfold modelInvoke at hc
  split at hc
  · simp at hc; rw [hc]
  · simp at hc; rcases hc with hc | hc <;> rw [hc]
  · simp at hc; rw [hc]

theorem generate_audio_ok_decomp (ext : Ext) (st : GState) (ti : TextInput)
    (g : GenOk) (tr : List Event)
    (h : generate_audio ext st ti = (.ok g, tr)) :
    ∃ M P inputs g0 a prepTr calls,
      st.model = some M ∧ st.processor = some P ∧
      prepareInputs P (conversationOf ext ti) ti.text = (.ok inputs, prepTr) ∧
      modelInvoke M inputs ti.temperature = (.ok g0, calls) ∧
      extractArr g0 = .ok a ∧
      g = ⟨ext.sfWrite (postWritten a) (rateOf M P), postWritten a, rateOf M P⟩ ∧
      tr = prepTr ++ calls.map mkCallEv ++ [.post (postWritten a)] := by
  unfold generate_audio at h
  cases hm : st.model with
  | none => rw [hm] at h; cases st.processor <;> simp at h
  | some M =>
      cases hp : st.processor with
      | none => rw [hm, hp] at h; simp at h
      | some P =>
          rw [hm, hp] at h
          dsimp only at h
          rcases hprep : prepareInputs P (conversationOf ext ti) ti.text with ⟨pres, prepTr⟩
          rw [hprep] at h
          cases pres with
          | error e => simp at h
          | ok inputs =>
              dsimp only at h
              rcases hmi : modelInvoke M inputs ti.temperature with ⟨mres, calls⟩
              rw [hmi] at h
              cases mres with
              | error e => simp at h
              | ok g0 =>
                  dsimp only at h
                  cases hex : extractArr g0 with
                  | error e => rw [hex] at h; simp at h
                  | ok a =>
                      rw [hex] at h
                      dsimp only at h
                      injection h with h1 h2
                      injection h1 with h1
                      exact ⟨M, P, inputs, g0, a, prepTr, calls, rfl, rfl, hprep,
                        hmi, hex, h1.symm, h2.symm⟩

theorem generate_audio_err_status (ext : Ext) (st : GState) (ti : TextInput)
    (e : HErr) (tr : List Event)
    (h : generate_audio ext st ti = (.error e, tr)) :
    e.status = 500 ∨ e.status = 503 := by
  unfold generate_audio at h
  cases hm : st.model with
  | none =>
      rw [hm] at h
      cases st.processor <;>
        (injection h with h1 h2; injection h1 with h1; rw [← h1]; exact Or.inr rfl)
  | some M =>
      cases hp : st.processor with
      | none =>
          rw [hm, hp] at h
          injection h with h1 h2; injection h1 with h1; rw [← h1]; exact Or.inr rfl
      | some P =>
          rw [hm, hp] at h
          dsimp only at h
          rcases hprep : prepareInputs P (conversationOf ext ti) ti.text with ⟨pres, prepTr⟩
          rw [hprep] at h
          cases pres with
          | error e0 =>
              injection h with h1 h2; injection h1 with h1; rw [← h1]; exact Or.inl rfl
          | ok inputs =>
              dsimp only at h
              rcases hmi : modelInvoke M inputs ti.temperature with ⟨mres, calls⟩
              rw [hmi] at h
              cases mres with
              | error e0 =>
                  injection h with h1 h2; injection h1 with h1; rw [← h1]; exact Or.inl rfl
              | ok g0 =>
                  dsimp only at h
                  cases hex : extractArr g0 with
                  | error e0 =>
                      rw [hex] at h
                      injection h with h1 h2; injection h1 with h1; rw [← h1]
                      exact Or.inl rfl
                  | ok a =>
                      rw [hex] at h
                      dsimp only at h
                      injection h with h1 h2
                      cases h1

theorem generate_audio_unloaded (ext : Ext) (st : GState) (ti : TextInput)
    (hnone : st.model = none ∨ st.processor = none) :
    generate_audio ext st ti =
      (.error ⟨503, "Model not loaded. Please check server logs."⟩, []) := by
  unfold generate_audio
  rcases hnone with h | h
  · rw [h]
  · cases hm : st.model with
    | none => rfl
    | some M => rw [h]

theorem handleRequest_generate (cfg : Config) (ext : Ext) (st : GState)
    (key : Option String) (b : RawGen) (ti : TextInput)
    (hauth : verify_api_key cfg.apiKey key = .ok ())
    (hti : mkTextInput b = .ok ti) :
    handleRequest cfg ext st ⟨.generate, key, .gen b⟩ =
      (match generate_audio ext st ti with
       | (.ok g, tr) => (⟨200, .stream g.wavBytes "audio/wav"⟩, st, .validated ti :: tr)
       | (.error e, tr) => (errResponse e, st, .validated ti :: tr)) := by
  simp only [handleRequest, routeAuthed, hauth, hti]
  rfl

/-- Claim C3: the /generate pipeline runs validation, processor invocation,
model invocation on the prepared processor output, post-processing, and
returns the serialized stream with media type audio/wav, in that order; with
the model or processor unset it answers 503 without any processor or model
invocation. -/
theorem generate_pipeline (cfg : Config) (ext : Ext) (st : GState) (key : Option String)
    (b : RawGen) (ti : TextInput)
    (hauth : verify_api_key cfg.apiKey key = .ok ())
    (hti : mkTextInput b = .ok ti) :
    (∀ resp st2 evs,
       handleRequest cfg ext st ⟨.generate, key, .gen b⟩ = (resp, st2, evs) →
       resp.status = 200 →
       st2 = st ∧
       ∃ M P inputs g0 a prepTr calls,
         st.model = some M ∧ st.processor = some P ∧
         prepareInputs P (conversationOf ext ti) ti.text = (.ok inputs, prepTr) ∧
         modelInvoke M inputs ti.temperature = (.ok g0, calls) ∧
         (∀ c ∈ calls, c.1 = inputs) ∧
         extractArr g0 = .ok a ∧
         resp = ⟨200, .stream (ext.sfWrite (postWritten a) (rateOf M P)) "audio/wav"⟩ ∧
         evs = .validated ti :: (prepTr ++ calls.map mkCallEv ++ [.post (postWritten a)]))
    ∧ ((st.model = none ∨ st.processor = none) →
        handleRequest cfg ext st ⟨.generate, key, .gen b⟩ =
          (⟨503, .json (.obj [("detail",
              .str "Model not loaded. Please check server logs.")])⟩,
           st, [.validated ti])) := by
  have hroute := handleRequest_generate cfg ext st key b ti hauth hti
  constructor
  · intro resp st2 evs h h200
    rcases hga : generate_audio ext st ti with ⟨res, tr⟩
    rw [hga] at hroute
    cases res with
    | ok g =>
        dsimp only at hroute
        rw [h] at hroute
        injection hroute with h1 h23
        injection h23 with h2 h3
        obtain ⟨M, P, inputs, g0, a, prepTr, calls, hm, hp, hprep, hmi, hex, hg, htr⟩ :=
          generate_audio_ok_decomp ext st ti g tr hga
        have hcalls : ∀ c ∈ calls, c.1 = inputs := by
          have h' := modelInvoke_calls_inputs M inputs ti.temperature
          rw [hmi] at h'
          exact h'
        subst hg
        refine ⟨h2, M, P, inputs, g0, a, prepTr, calls, hm, hp, hprep, hmi,
          hcalls, hex, ?_, ?_⟩
        · exact h1
        · rw [h3, htr]
    | error e =>
        dsimp only at hroute
        rw [h] at hroute
        injection hroute with h1 h23
        have hst := generate_audio_err_status ext st ti e tr hga
        rw [h1] at h200
        simp [errResponse] at h200
        rcases hst with hst | hst <;> omega
  · intro hnone
    rw [generate_audio_unloaded ext st ti hnone] at hroute
    exact hroute

theorem generate_pipeline_witness :
    handleRequest cfgW extW stNone ⟨.generate, none, .gen rawW⟩ =
      (⟨503, .json (.obj [("detail",
          .str "Model not loaded. Please check server logs.")])⟩,
       stNone, [.validated tiW]) :=
  (generate_pipeline cfgW extW stNone none rawW tiW rfl rfl).2 (Or.inl rfl)

theorem handleRequest_run (cfg : Config) (ext : Ext) (st : GState)
    (key : Option String) (j : Job)
    (hauth : verify_api_key cfg.apiKey key = .ok ()) :
    handleRequest cfg ext st ⟨.run, key, .run j⟩ =
      (⟨200, .json (runRespToJ (runpod_handler ext st j).1)⟩, st,
       (runpod_handler ext st j).2) := by
  simp only [handleRequest, routeAuthed, hauth]
  rcases hrp : runpod_handler ext st j with ⟨rr, tr⟩
  rw [if_neg (by decide)]

/-- Claim C9: the job endpoint never signals failure through an HTTP error
status. Under a passing key check every job body is answered 200 with a JSON
object holding exactly one of the keys output or error; a missing or empty
text yields the fixed no-text error message; a validation error from building
the TextInput and the 503 raised when the model or processor is unset are
both converted into an error body. -/
theorem run_error_envelope (cfg : Config) (ext : Ext) (st : GState) (key : Option String)
    (j : Job) (hauth : verify_api_key cfg.apiKey key = .ok ()) :
    ∃ r : RunResp,
      (handleRequest cfg ext st ⟨.run, key, .run j⟩).1 = ⟨200, .json (runRespToJ r)⟩ ∧
      ((∃ o, r = .output o) ∨ (∃ m, r = .err m)) ∧
      ¬((∃ o, r = .output o) ∧ (∃ m, r = .err m)) ∧
      ((∃ v, runRespToJ r = .obj [("output", v)]) ∨
        (∃ m, runRespToJ r = .obj [("error", .str m)])) ∧
      (jobText j = "" → r = .err "No text provided in input") ∧
      (∀ e, mkTextInput (rawOfJob j) = .error e → jobText j ≠ "" → r = .err e.msg) ∧
      (∀ ti, mkTextInput (rawOfJob j) = .ok ti → jobText j ≠ "" →
        (st.model = none ∨ st.processor = none) →
        r = .err ("503" ++ ": " ++ "Model not loaded. Please check server logs.")) := by
  refine ⟨(runpod_handler ext st j).1, ?_, ?_, ?_, ?_, ?_, ?_, ?_⟩
  · exact congrArg Prod.fst (handleRequest_run cfg ext st key j hauth)
  · rcases hr : (runpod_handler ext st j).1 with o | m
    · exact Or.inl ⟨o, rfl⟩
    · exact Or.inr ⟨m, rfl⟩
  · rintro ⟨⟨o, ho⟩, ⟨m, hm⟩⟩
    rw [ho] at hm
    cases hm
  · rcases hr : (runpod_handler ext st j).1 with o | m
    · exact Or.inl ⟨_, rfl⟩
    · exact Or.inr ⟨m, rfl⟩
  · intro hempty
    unfold jobText at hempty
    unfold runpod_handler
    dsimp only
    rw [if_pos hempty]
  · intro e he hne
    unfold jobText at hne
    unfold runpod_handler
    dsimp only
    rw [if_neg hne]
    have hrw := mkTextInput_runpod (j.input.getD jobInputDefault).text
      (j.input.getD jobInputDefault).language (j.input.getD jobInputDefault).temperature
    unfold rawOfJob at he
    dsimp only at he
    rw [hrw, he]
  · intro ti hok hne hnone
    unfold jobText at hne
    unfold runpod_handler
    dsimp only
    rw [if_neg hne]
    have hrw := mkTextInput_runpod (j.input.getD jobInputDefault).text
      (j.input.getD jobInputDefault).language (j.input.getD jobInputDefault).temperature
    unfold rawOfJob at hok
    dsimp only at hok
    rw [hrw, hok]
    dsimp only
    rw [generate_audio_unloaded ext st ti hnone]
    rfl

theorem run_error_envelope_witness :
    ∃ r : RunResp,
      (handleRequest cfgW extW stW ⟨.run, none, .run ⟨some ⟨"", none, none⟩⟩⟩).1 =
        ⟨200, .json (runRespToJ r)⟩ ∧ r = .err "No text provided in input" := by
  obtain ⟨r, h1, _, _, _, h5, _, _⟩ :=
    run_error_envelope cfgW extW stW none ⟨some ⟨"", none, none⟩⟩ rfl
  exact ⟨r, h1, h5 rfl⟩

/-- Claim C1: the job envelope refines the direct endpoint. Whenever a /run
response under a passing key check carries an output object, the TextInput
built from the same text, language and temperature validates, the /generate
route answers 200 with some WAV byte stream and media type audio/wav, and the
output object carries audio_format "wav", the input text, and a base64 field
that decodes to exactly that byte stream. -/
theorem run_refines_generate (cfg : Config) (ext : Ext) (st : GState) (key : Option String)
    (j : Job) (oJ : J)
    (hauth : verify_api_key cfg.apiKey key = .ok ())
    (hout : getFieldR (handleRequest cfg ext st ⟨.run, key, .run j⟩).1 "output" = some oJ) :
    ∃ ti bytes,
      mkTextInput (rawOfJob j) = .ok ti ∧
      (handleRequest cfg ext st ⟨.generate, key, .gen (rawOfJob j)⟩).1 =
        ⟨200, .stream bytes "audio/wav"⟩ ∧
      getField oJ "audio_format" = some (.str "wav") ∧
      getField oJ "text" = some (.str (jobText j)) ∧
      ∃ s, getField oJ "audio_base64" = some (.str s) ∧
        b64decodeBytes s.data = some bytes := by
  rw [handleRequest_run cfg ext st key j hauth] at hout
  rcases hr : (runpod_handler ext st j).1 with o | m
  case err =>
    rw [hr] at hout
    have hnone : (none : Option J) = some oJ := hout
    cases hnone
  case output =>
    rw [hr] at hout
    have hsome : some (J.obj
        [("audio_base64", .str o.audio_base64),
         ("audio_format", .str o.audio_format),
         ("text", .str o.text)]) = some oJ := hout
    have hoj := (Option.some.inj hsome).symm
    unfold runpod_handler at hr
    dsimp only at hr
    split at hr
    · simp at hr
    · split at hr
      · simp at hr
      case h_2 ti hti =>
        have hra : mkTextInput (rawOfJob j) = .ok ti := by
          unfold rawOfJob
          dsimp only
          rw [← mkTextInput_runpod (j.input.getD jobInputDefault).text
            (j.input.getD jobInputDefault).language
            (j.input.getD jobInputDefault).temperature]
          exact hti
        split at hr
        case h_1 g tr hga =>
          dsimp only at hr
          injection hr with ho
          have hgen := handleRequest_generate cfg ext st key (rawOfJob j) ti hauth hra
          rw [hga] at hgen
          refine ⟨ti, g.wavBytes, hra, ?_, ?_, ?_, ?_⟩
          · exact congrArg Prod.fst hgen
          · rw [hoj, ← ho]; rfl
          · rw [hoj, ← ho]; rfl
          · refine ⟨String.mk (b64encodeBytes g.wavBytes), ?_, ?_⟩
            · rw [hoj, ← ho]; rfl
            · exact b64_roundtrip g.wavBytes
        case h_2 e tr hga =>
          simp at hr

theorem run_refines_generate_witness :
    ∃ ti bytes,
      mkTextInput (rawOfJob jobW) = .ok ti ∧
      (handleRequest cfgW extW stW ⟨.generate, none, .gen (rawOfJob jobW)⟩).1 =
        ⟨200, .stream bytes "audio/wav"⟩ ∧
      getField oJW "audio_format" = some (.str "wav") ∧
      getField oJW "text" = some (.str (jobText jobW)) ∧
      ∃ s, getField oJW "audio_base64" = some (.str s) ∧
        b64decodeBytes s.data = some bytes :=
  run_refines_generate cfgW extW stW none jobW oJW rfl (by rfl)

/-- Claim C8, evaluated at the failing input: a genuinely multi-channel model
output of shape 2 by 2 still has shape 2 by 2 after post-processing, because
squeeze removes only axes of size 1, so the array handed to the WAV encoder
is not single-channel — contradicting both the claim and the inline comment
above the squeeze in the source. Clipping to the interval from -1 to 1 and
the float32 cast do behave as claimed. -/
theorem postWritten_multichannel :
    (postWritten ⟨[2, 2], [3, 1, -2, 0], .othert⟩).shape = [2, 2] ∧
    (postWritten ⟨[2, 2], [3, 1, -2, 0], .othert⟩).shape.length ≠ 1 ∧
    (postWritten ⟨[2, 2], [3, 1, -2, 0], .othert⟩).data = [1, 1, -1, 0] ∧
    (postWritten ⟨[2, 2], [3, 1, -2, 0], .othert⟩).dtype = .float32 :=
  ⟨rfl, by decide, rfl, rfl⟩


end TTSApi
